import Mathlib

/-!
# dynamicutil.CreateOrUpdate

A shallow embedding of `dynamicutil/dynamicutil.go`.

* Pointers are replaced by explicit state passing: the caller's handle `obj`
  is returned in the `Outcome`, the store's state is threaded through every
  client call.
* Everything that lives in `k8s.io/apimachinery` (accessors of `metav1.Object`,
  `runtime.DefaultUnstructuredConverter`, `reflect`, `equality.Semantic`) is a
  field of the structure `Apimachinery`; every theorem holds for all of them.
* The client (`dynamic.NamespaceableResourceInterface`) is an arbitrary state
  machine.  A client call does not write through the pointer it is given.
* A `MutateFn` is a closure over the caller's handle; it acts on the pointee,
  may leave it modified even when it reports an error, and cannot change the
  dynamic type behind the handle.  It does not talk to the client.
* Every call that `CreateOrUpdate` issues is appended to `Outcome.calls`.
-/

namespace Dynamicutil

/-- OperationResult is the action result of a CreateOrUpdate call. -/
inductive OperationResult
  | OperationResultNone
  | OperationResultCreated
  | OperationResultUpdated
  deriving DecidableEq, Repr

open OperationResult

/-- The string constant behind each OperationResult. -/
def OperationResult.value : OperationResult → String
  | OperationResultNone => "unchanged"
  | OperationResultCreated => "created"
  | OperationResultUpdated => "updated"

/-- A Go `error` value: its message and whether its status reason is NotFound. -/
structure GoError where
  message : String
  statusNotFound : Bool
  deriving DecidableEq, Repr

/-- The check `apierrors.IsNotFound`. -/
def IsNotFound (err : GoError) : Bool := err.statusNotFound

/-- An error built by `fmt.Errorf`: a plain error, never a NotFound status. -/
def Errorf (msg : String) : GoError := ⟨msg, false⟩

/-- The pair `types.NamespacedName`. -/
structure NamespacedName where
  Name : String
  Namespace : String
  deriving DecidableEq, Repr

/-- The struct `unstructured.Unstructured` over the map type `M`. -/
structure Unstructured (M : Type) where
  Object : M
  deriving DecidableEq, Repr

/-- What an `Object` interface value can hold: a `*unstructured.Unstructured`
or a value of any other dynamic type (`T`). -/
inductive Object (T M : Type)
  | typed (t : T)
  | unstructured (u : Unstructured M)
  deriving DecidableEq, Repr

/-- The library functions the package calls, for objects of type `T` and maps `M`. -/
structure Apimachinery (T M : Type) where
  /-- The accessor `GetName` of a typed object. -/
  typedName : T → String
  /-- The accessor `GetNamespace` of a typed object. -/
  typedNamespace : T → String
  /-- The accessor `GetName` of an unstructured object, read from its map. -/
  mapName : M → String
  /-- The accessor `GetNamespace` of an unstructured object, read from its map. -/
  mapNamespace : M → String
  /-- Whether `reflect.TypeOf(obj).Kind()` is `reflect.Ptr`. -/
  isPtr : T → Bool
  /-- The type as printed by `%v`. -/
  typeName : T → String
  /-- The value of `reflect.New(t.Elem()).Interface()`: a fresh zero value. -/
  newZero : T → T
  /-- The nil map of a freshly allocated `unstructured.Unstructured`. -/
  nilMap : M
  /-- The converter method `ToUnstructured`. -/
  ToUnstructured : T → Except GoError M
  /-- The converter method `FromUnstructured`; the target may be left partly
  written when it fails. -/
  FromUnstructured : M → T → T × Option GoError
  /-- The comparison `equality.Semantic.DeepEqual`. -/
  DeepEqual : Object T M → Object T M → Bool

/-- MutateFn is a function which mutates the existing object into its desired
state: a closure over the caller's handle. -/
structure MutateFn (T M : Type) where
  onTyped : T → T × Option GoError
  onUnstructured : M → M × Option GoError

/-- Running the closure `f()` while the handle holds `obj`. -/
def MutateFn.call {T M : Type} (f : MutateFn T M) : Object T M → Object T M × Option GoError
  | .typed t => ((f.onTyped t).1 |> Object.typed, (f.onTyped t).2)
  | .unstructured u => (Object.unstructured ⟨(f.onUnstructured u.Object).1⟩, (f.onUnstructured u.Object).2)

/-- The methods of `dynamic.ResourceInterface` the package uses, over a store state `σ`. -/
structure ResourceInterface (σ M : Type) where
  Get : String → σ → Except GoError (Unstructured M) × σ
  Create : Unstructured M → σ → Except GoError (Unstructured M) × σ
  Update : Unstructured M → σ → Except GoError (Unstructured M) × σ

/-- The interface `dynamic.NamespaceableResourceInterface`. -/
structure NamespaceableResourceInterface (σ M : Type) where
  Namespace : String → ResourceInterface σ M

/-- One call issued by `CreateOrUpdate`; `ok` tells whether a write returned no error. -/
inductive Call (M : Type)
  | Get (ns name : String)
  | Mutate
  | Create (ns : String) (obj : Unstructured M) (ok : Bool)
  | Update (ns : String) (obj : Unstructured M) (ok : Bool)
  deriving DecidableEq, Repr

/-- Everything observable after a call of `CreateOrUpdate`. -/
structure Outcome (σ T M : Type) where
  /-- The returned OperationResult. -/
  result : OperationResult
  /-- The returned error (`none` is nil). -/
  err : Option GoError
  /-- The state behind the caller's handle. -/
  obj : Object T M
  /-- The state of the store. -/
  store : σ
  /-- The calls issued, in order. -/
  calls : List (Call M)

section Code

variable {σ T M : Type}

def namespacedNameFromObject (k : Apimachinery T M) : Object T M → NamespacedName
  | .typed t => { Name := k.typedName t, Namespace := k.typedNamespace t }
  | .unstructured u => { Name := k.mapName u.Object, Namespace := k.mapNamespace u.Object }

/-- mutate wraps a MutateFn and applies validation to its result. -/
def mutate (k : Apimachinery T M) (f : MutateFn T M) (key : NamespacedName)
    (obj : Object T M) : Object T M × Option GoError :=
  match f.call obj with
  | (obj1, some err) => (obj1, some err)
  | (obj1, none) =>
    let newKey := namespacedNameFromObject k obj1
    if key ≠ newKey then
      (obj1, some (Errorf "MutateFn cannot mutate object name and/or object namespace"))
    else
      (obj1, none)

def newObject (k : Apimachinery T M) : Object T M → Except GoError (Object T M)
  | .unstructured _ => .ok (.unstructured ⟨k.nilMap⟩)
  | .typed t =>
    if k.isPtr t != true then
      .error (Errorf ("newObject requires a pointer to an object, got " ++ k.typeName t))
    else
      .ok (.typed (k.newZero t))

def unstructuredFromObject (k : Apimachinery T M) : Object T M → Except GoError (Unstructured M)
  | .unstructured uns => .ok uns
  | .typed t =>
    match k.ToUnstructured t with
    | .error err => .error err
    | .ok m => .ok ⟨m⟩

def objectFromUnstructured (k : Apimachinery T M) (uns : Unstructured M) :
    Object T M → Object T M × Option GoError
  | .unstructured _ => (.unstructured ⟨uns.Object⟩, none)
  | .typed t => (.typed (k.FromUnstructured uns.Object t).1, (k.FromUnstructured uns.Object t).2)

/-- CreateOrUpdate creates or updates the given object in the store. The
object's desired state must be reconciled with the existing state inside the
passed in callback MutateFn. It returns the executed operation and an error. -/
def CreateOrUpdate (k : Apimachinery T M) (c : NamespaceableResourceInterface σ M)
    (obj : Object T M) (f : MutateFn T M) (s0 : σ) : Outcome σ T M :=
  let key := namespacedNameFromObject k obj
  let cli := c.Namespace key.Namespace
  let ns := key.Namespace
  match cli.Get key.Name s0 with
  | (.error err, s1) =>
    if !IsNotFound err then
      ⟨OperationResultNone, some err, obj, s1, [.Get ns key.Name]⟩
    else
      match mutate k f key obj with
      | (obj1, some err) =>
        ⟨OperationResultNone, some err, obj1, s1, [.Get ns key.Name, .Mutate]⟩
      | (obj1, none) =>
        match unstructuredFromObject k obj1 with
        | .error err =>
          ⟨OperationResultNone, some err, obj1, s1, [.Get ns key.Name, .Mutate]⟩
        | .ok objUns =>
          match cli.Create objUns s1 with
          | (.error err, s2) =>
            ⟨OperationResultNone, some err, obj1, s2,
              [.Get ns key.Name, .Mutate, .Create ns objUns false]⟩
          | (.ok resultUns, s2) =>
            match objectFromUnstructured k resultUns obj1 with
            | (obj2, some err) =>
              ⟨OperationResultNone, some err, obj2, s2,
                [.Get ns key.Name, .Mutate, .Create ns objUns true]⟩
            | (obj2, none) =>
              ⟨OperationResultCreated, none, obj2, s2,
                [.Get ns key.Name, .Mutate, .Create ns objUns true]⟩
  | (.ok resultUns, s1) =>
    match newObject k obj with
    | .error err => ⟨OperationResultNone, some err, obj, s1, [.Get ns key.Name]⟩
    | .ok existing0 =>
      match objectFromUnstructured k resultUns existing0 with
      | (_, some err) => ⟨OperationResultNone, some err, obj, s1, [.Get ns key.Name]⟩
      | (existing, none) =>
        match mutate k f key obj with
        | (obj1, some err) =>
          ⟨OperationResultNone, some err, obj1, s1, [.Get ns key.Name, .Mutate]⟩
        | (obj1, none) =>
          if k.DeepEqual existing obj1 then
            ⟨OperationResultNone, none, obj1, s1, [.Get ns key.Name, .Mutate]⟩
          else
            match unstructuredFromObject k obj1 with
            | .error err =>
              ⟨OperationResultNone, some err, obj1, s1, [.Get ns key.Name, .Mutate]⟩
            | .ok objUns =>
              match cli.Update objUns s1 with
              | (.error err, s2) =>
                ⟨OperationResultNone, some err, obj1, s2,
                  [.Get ns key.Name, .Mutate, .Update ns objUns false]⟩
              | (.ok resultUns2, s2) =>
                match objectFromUnstructured k resultUns2 obj1 with
                | (obj2, some err) =>
                  ⟨OperationResultNone, some err, obj2, s2,
                    [.Get ns key.Name, .Mutate, .Update ns objUns true]⟩
                | (obj2, none) =>
                  ⟨OperationResultUpdated, none, obj2, s2,
                    [.Get ns key.Name, .Mutate, .Update ns objUns true]⟩

end Code

/-! ## Reading the list of calls -/

section Calls

variable {M : Type}

/-- Whether the call is a Create. -/
def Call.isCreate : Call M → Bool
  | .Create _ _ _ => true
  | _ => false

/-- Whether the call is an Update. -/
def Call.isUpdate : Call M → Bool
  | .Update _ _ _ => true
  | _ => false

/-- Whether the call is a Get. -/
def Call.isGet : Call M → Bool
  | .Get _ _ => true
  | _ => false

/-- Whether the call is a run of the MutateFn. -/
def Call.isMutate : Call M → Bool
  | .Mutate => true
  | _ => false

/-- Whether the call is a write: a Create or an Update. -/
def Call.isWrite (c : Call M) : Bool := c.isCreate || c.isUpdate

/-- Whether the call is a write that returned no error. -/
def Call.isSuccessfulWrite : Call M → Bool
  | .Create _ _ ok => ok
  | .Update _ _ ok => ok
  | _ => false

/-- The number of Create calls. -/
def createCount (cs : List (Call M)) : Nat := cs.countP Call.isCreate

/-- The number of Update calls. -/
def updateCount (cs : List (Call M)) : Nat := cs.countP Call.isUpdate

/-- The number of times the MutateFn ran. -/
def mutateCount (cs : List (Call M)) : Nat := cs.countP Call.isMutate

/-- The number of Get calls. -/
def getCount (cs : List (Call M)) : Nat := cs.countP Call.isGet

end Calls

/-! ## Names for what a call of `CreateOrUpdate` does first -/

section Fetch

variable {σ T M : Type}

/-- The namespaced client `cli` that `CreateOrUpdate` talks to. -/
def clientOf (k : Apimachinery T M) (c : NamespaceableResourceInterface σ M)
    (obj : Object T M) : ResourceInterface σ M :=
  c.Namespace (namespacedNameFromObject k obj).Namespace

/-- The initial `cli.Get` of `CreateOrUpdate`: its result and the store after it. -/
def fetch (k : Apimachinery T M) (c : NamespaceableResourceInterface σ M)
    (obj : Object T M) (s0 : σ) : Except GoError (Unstructured M) × σ :=
  (clientOf k c obj).Get (namespacedNameFromObject k obj).Name s0

end Fetch

/-! ## A concrete instance

A small typed kind (`Deployment`), attribute maps keyed by field path, the
converter between the two, and an in-memory client. They are used to run the
code on concrete inputs. -/

namespace Example

/-- A leaf value of an attribute map. -/
inductive Scalar
  | str (s : String)
  | int (n : Int)
  deriving DecidableEq, Repr

/-- An attribute map: field path to value. -/
abbrev Fields := List (String × Scalar)

/-- The typed kind: identity, one spec field, one status field. -/
structure Deployment where
  Name : String
  Namespace : String
  Replicas : Option Int
  UnavailableReplicas : Int
  deriving DecidableEq, Repr

/-- Reads a string field; absent fields read as the empty string. -/
def nestedString (m : Fields) (path : String) : String :=
  match m.lookup path with
  | some (.str s) => s
  | _ => ""

/-- Typed to map: every field of the schema, unset replicas omitted. -/
def toUnstructured (d : Deployment) : Fields :=
  [("metadata.name", .str d.Name), ("metadata.namespace", .str d.Namespace)]
    ++ (match d.Replicas with
        | some r => [("spec.replicas", .int r)]
        | none => [])
    ++ [("status.unavailableReplicas", .int d.UnavailableReplicas)]

/-- Reads a string field of the schema into the target. -/
def readString (m : Fields) (path : String) : Except GoError String :=
  match m.lookup path with
  | none => .ok ""
  | some (.str s) => .ok s
  | some (.int _) => .error (Errorf ("cannot unmarshal number into field " ++ path))

/-- Reads an integer field of the schema into the target. -/
def readInt (m : Fields) (path : String) : Except GoError (Option Int) :=
  match m.lookup path with
  | none => .ok none
  | some (.int n) => .ok (some n)
  | some (.str _) => .error (Errorf ("cannot unmarshal string into field " ++ path))

/-- Map to typed: fields outside the schema are dropped, a field of the wrong
shape is an error and leaves the target as it was. -/
def fromUnstructured (m : Fields) (d : Deployment) : Deployment × Option GoError :=
  match readString m "metadata.name", readString m "metadata.namespace",
      readInt m "spec.replicas", readInt m "status.unavailableReplicas" with
  | .ok name, .ok ns, .ok r, .ok u => (⟨name, ns, r, u.getD 0⟩, none)
  | .error e, _, _, _ => (d, some e)
  | _, .error e, _, _ => (d, some e)
  | _, _, .error e, _ => (d, some e)
  | _, _, _, .error e => (d, some e)

/-- The library for `Deployment` and `Fields`; DeepEqual is equality of values. -/
def apimachinery : Apimachinery Deployment Fields where
  typedName := fun d => d.Name
  typedNamespace := fun d => d.Namespace
  mapName := fun m => nestedString m "metadata.name"
  mapNamespace := fun m => nestedString m "metadata.namespace"
  isPtr := fun _ => true
  typeName := fun _ => "*Deployment"
  newZero := fun _ => ⟨"", "", none, 0⟩
  nilMap := []
  ToUnstructured := fun d => .ok (toUnstructured d)
  FromUnstructured := fromUnstructured
  DeepEqual := fun a b => decide (a = b)

/-- The state of the in-memory store: objects by namespace and name. -/
abbrev Store := List ((String × String) × Fields)

/-- Replaces the entry at a key. -/
def Store.put (s : Store) (key : String × String) (m : Fields) : Store :=
  (key, m) :: s.filter (fun e => e.1 != key)

/-- An in-memory client. `populate` is what the server adds to an object it
writes; the written object is stored and returned. -/
def memClient (populate : Fields → Fields) : NamespaceableResourceInterface Store Fields where
  Namespace := fun ns =>
    { Get := fun name s =>
        match s.lookup (ns, name) with
        | some m => (.ok ⟨m⟩, s)
        | none => (.error ⟨"not found", true⟩, s)
      Create := fun u s =>
        match s.lookup (ns, nestedString u.Object "metadata.name") with
        | some _ => (.error (Errorf "already exists"), s)
        | none =>
          (.ok ⟨populate u.Object⟩, s.put (ns, nestedString u.Object "metadata.name") (populate u.Object))
      Update := fun u s =>
        match s.lookup (ns, nestedString u.Object "metadata.name") with
        | none => (.error ⟨"not found", true⟩, s)
        | some _ =>
          (.ok ⟨populate u.Object⟩, s.put (ns, nestedString u.Object "metadata.name") (populate u.Object)) }

/-- A client whose Get always fails with a plain error. -/
def errorReader : NamespaceableResourceInterface Store Fields where
  Namespace := fun ns =>
    { Get := fun _ s => (.error (Errorf "unexpected error"), s)
      Create := ((memClient id).Namespace ns).Create
      Update := ((memClient id).Namespace ns).Update }

/-- The desired object of the scenarios. -/
def deploy : Deployment := ⟨"deploy-1", "default", none, 0⟩

/-- The same desired object in generic form. -/
def deployUns : Unstructured Fields :=
  ⟨[("metadata.name", .str "deploy-1"), ("metadata.namespace", .str "default")]⟩

/-- Writes a field of an attribute map. -/
def setField (m : Fields) (path : String) (v : Scalar) : Fields :=
  (path, v) :: m.filter (fun e => e.1 != path)

/-- A MutateFn that sets the number of replicas. -/
def deploymentScaler (replicas : Int) : MutateFn Deployment Fields where
  onTyped := fun d => ({ d with Replicas := some replicas }, none)
  onUnstructured := fun m => (setField m "spec.replicas" (.int replicas), none)

/-- A MutateFn that appends "-1" to the name. -/
def deploymentRenamer : MutateFn Deployment Fields where
  onTyped := fun d => ({ d with Name := d.Name ++ "-1" }, none)
  onUnstructured := fun m =>
    (setField m "metadata.name" (.str (nestedString m "metadata.name" ++ "-1")), none)

/-- A MutateFn that appends "-1" to the namespace. -/
def deploymentNamespaceChanger : MutateFn Deployment Fields where
  onTyped := fun d => ({ d with Namespace := d.Namespace ++ "-1" }, none)
  onUnstructured := fun m =>
    (setField m "metadata.namespace" (.str (nestedString m "metadata.namespace" ++ "-1")), none)

/-- The deployment with one replica. -/
def scaled : Deployment := ⟨"deploy-1", "default", some 1, 0⟩

/-- A store that holds the deployment with one replica. -/
def seeded : Store := [(("default", "deploy-1"), toUnstructured scaled)]

/-- A store whose object at the key carries text where the schema has a number. -/
def malformed : Store :=
  [(("default", "deploy-1"),
    [("metadata.name", .str "deploy-1"), ("metadata.namespace", .str "default"),
     ("spec.replicas", .str "many")])]

/-- A MutateFn that fails and leaves the object alone. -/
def failingMutate : MutateFn Deployment Fields where
  onTyped := fun d => (d, some (Errorf "mutate failed"))
  onUnstructured := fun m => (m, some (Errorf "mutate failed"))

/-- A MutateFn that only touches a status field. -/
def statusMutate : MutateFn Deployment Fields where
  onTyped := fun d => ({ d with UnavailableReplicas := 32 }, none)
  onUnstructured := fun m => (setField m "status.unavailableReplicas" (.int 32), none)

/-- A server that reports a status field as text. -/
def populateText (m : Fields) : Fields :=
  setField m "status.unavailableReplicas" (.str "unknown")

/-- A server that fills in a status field of the schema on every write. -/
def populateStatus (m : Fields) : Fields :=
  setField m "status.unavailableReplicas" (.int 1)

end Example

end Dynamicutil

/-!
# fakeutil.NewSimpleDynamicClient

A shallow embedding of `fakeutil/simple.go`.

* A call yields a value, an error, or a panic (`GoResult`).
* The scheme that is passed in is seen through the two methods the package
  calls on it, `AllKnownTypes` (the keys of a Go map, in whatever order the
  iteration visits them) and `ObjectKinds`.
* The scheme that is built is the `gvkToType` map of a fresh `runtime.Scheme`,
  written through `Recognizes` and `AddKnownTypeWithName` only, kept as a list
  in registration order.
* `fake.NewSimpleDynamicClientWithCustomListKinds` is not run: the client is the
  pair of arguments handed to it.
-/

namespace Fakeutil

open Dynamicutil (GoError Unstructured Object)

/-- The triple `schema.GroupVersionKind`. -/
structure GroupVersionKind where
  Group : String
  Version : String
  Kind : String
  deriving DecidableEq, Repr

/-- The check `strings.HasSuffix`. -/
def HasSuffix (s suffix : String) : Bool := suffix.data.isSuffixOf s.data

/-- What a call yields: a value, a returned error, or a panic. -/
inductive GoResult (α : Type)
  | ok (a : α)
  | err (e : GoError)
  | panic (msg : String)
  deriving DecidableEq, Repr

/-- Sequencing: an error or a panic ends the run. -/
def GoResult.bind {α β : Type} (r : GoResult α) (g : α → GoResult β) : GoResult β :=
  match r with
  | .ok a => g a
  | .err e => .err e
  | .panic msg => .panic msg

/-- An error built by `fmt.Errorf` with a trailing `%w`: it wraps `err`. -/
def Wrapf (msg : String) (err : GoError) : GoError := ⟨msg ++ err.message, err.statusNotFound⟩

/-- The two Go types that are registered in the scheme that is built. -/
inductive UnstructuredType
  | Unstructured
  | UnstructuredList
  deriving DecidableEq, Repr

/-- The `gvkToType` map of the scheme that is built. -/
abbrev UnstructuredScheme := List (GroupVersionKind × UnstructuredType)

/-- The constructor `runtime.NewScheme`: nothing is registered. -/
def NewScheme : UnstructuredScheme := []

/-- The method `Scheme.Recognizes`: whether the kind is a key of `gvkToType`. -/
def Recognizes (s : UnstructuredScheme) (gvk : GroupVersionKind) : Bool :=
  (s.lookup gvk).isSome

/-- The method `Scheme.AddKnownTypeWithName`: it panics on an empty version and
on a second registration with another type, and registers the type otherwise. -/
def AddKnownTypeWithName (s : UnstructuredScheme) (gvk : GroupVersionKind)
    (t : UnstructuredType) : GoResult UnstructuredScheme :=
  if gvk.Version = "" then
    .panic "version is required on all types"
  else
    match s.lookup gvk with
    | some old => if old ≠ t then .panic "Double registration of different types" else .ok s
    | none => .ok (s ++ [(gvk, t)])

/-- The library functions the package calls on objects and maps. -/
structure Runtime (T M : Type) where
  /-- The converter method `ToUnstructured`, called on any object. -/
  ToUnstructured : Object T M → Except GoError M
  /-- The method `GroupVersionKind` of an unstructured object, read from its map. -/
  GroupVersionKindOf : M → GroupVersionKind
  /-- The method `SetGroupVersionKind` of an unstructured object. -/
  SetGroupVersionKind : M → GroupVersionKind → M

/-- The methods of the `*runtime.Scheme` that is passed in. -/
structure Scheme (T M : Type) where
  /-- The keys of `AllKnownTypes()`, in iteration order. -/
  AllKnownTypes : List GroupVersionKind
  /-- The method `ObjectKinds`, without its second result. -/
  ObjectKinds : Object T M → Except GoError (List GroupVersionKind)

/-- The arguments handed to `fake.NewSimpleDynamicClientWithCustomListKinds`. -/
structure FakeDynamicClient (M : Type) where
  scheme : UnstructuredScheme
  objects : List (Unstructured M)

section Code

variable {T M : Type}

def convertToUnstructured (rt : Runtime T M) (s : Scheme T M) (obj : Object T M) :
    GoResult (Unstructured M) :=
  match rt.ToUnstructured obj with
  | .error err => .err (Wrapf "failed to convert to unstructured: " err)
  | .ok m =>
    let gvk := rt.GroupVersionKindOf m
    if gvk.Group == "" || gvk.Kind == "" then
      match s.ObjectKinds obj with
      | .error err => .err (Wrapf "failed to convert to unstructured - unable to get GVK " err)
      | .ok [] => .panic "index out of range [0] with length 0"
      | .ok (gvk0 :: _) => .ok ⟨rt.SetGroupVersionKind m gvk0⟩
    else
      .ok ⟨m⟩

def convertObjectsToUnstructured (rt : Runtime T M) (s : Scheme T M) :
    List (Object T M) → GoResult (List (Unstructured M))
  | [] => .ok []
  | obj :: objs =>
    (convertToUnstructured rt s obj).bind fun u =>
      (convertObjectsToUnstructured rt s objs).bind fun ul => .ok (u :: ul)

/-- The first loop of NewSimpleDynamicClient, over `scheme.AllKnownTypes()`. -/
def registerKnownTypes : List GroupVersionKind → UnstructuredScheme → GoResult UnstructuredScheme
  | [], unstructuredScheme => .ok unstructuredScheme
  | gvk :: rest, unstructuredScheme =>
    if Recognizes unstructuredScheme gvk then
      registerKnownTypes rest unstructuredScheme
    else if HasSuffix gvk.Kind "List" then
      (AddKnownTypeWithName unstructuredScheme gvk .UnstructuredList).bind
        (registerKnownTypes rest)
    else
      (AddKnownTypeWithName unstructuredScheme gvk .Unstructured).bind
        (registerKnownTypes rest)

/-- The body of the second loop of NewSimpleDynamicClient, for one object. -/
def registerObject (rt : Runtime T M) (obj : Unstructured M)
    (unstructuredScheme : UnstructuredScheme) : GoResult UnstructuredScheme :=
  let gvk := rt.GroupVersionKindOf obj.Object
  (if !Recognizes unstructuredScheme gvk then
      AddKnownTypeWithName unstructuredScheme gvk .Unstructured
    else .ok unstructuredScheme).bind fun s1 =>
  let listGVK := { gvk with Kind := gvk.Kind ++ "List" }
  if !Recognizes s1 listGVK then
    AddKnownTypeWithName s1 listGVK .UnstructuredList
  else .ok s1

/-- The second loop of NewSimpleDynamicClient, over the converted objects. -/
def registerObjects (rt : Runtime T M) :
    List (Unstructured M) → UnstructuredScheme → GoResult UnstructuredScheme
  | [], unstructuredScheme => .ok unstructuredScheme
  | obj :: rest, unstructuredScheme =>
    (registerObject rt obj unstructuredScheme).bind (registerObjects rt rest)

/-- NewSimpleDynamicClient creates the fake dynamic client. -/
def NewSimpleDynamicClient (rt : Runtime T M) (scheme : Scheme T M)
    (objects : List (Object T M)) : GoResult (FakeDynamicClient M) :=
  (registerKnownTypes scheme.AllKnownTypes NewScheme).bind fun unstructuredScheme =>
    match convertObjectsToUnstructured rt scheme objects with
    | .err err => .panic err.message
    | .panic msg => .panic msg
    | .ok objs =>
      (registerObjects rt objs unstructuredScheme).bind fun s2 => .ok ⟨s2, objs⟩

end Code

/-- The kind with "List" appended, in the same group and version. -/
def listKindOf (gvk : GroupVersionKind) : GroupVersionKind :=
  { gvk with Kind := gvk.Kind ++ "List" }

/-- The type the first loop registers a kind with. -/
def typeBySuffix (gvk : GroupVersionKind) : UnstructuredType :=
  if HasSuffix gvk.Kind "List" then .UnstructuredList else .Unstructured

/-- Every registration of `s` is still a registration of `s2`, with the same type. -/
def Extends (s s2 : UnstructuredScheme) : Prop :=
  ∀ g x, s.lookup g = some x → s2.lookup g = some x

/-- Every kind of `s` is registered with the type its suffix selects. -/
def FollowsSuffix (s : UnstructuredScheme) : Prop :=
  ∀ g x, s.lookup g = some x → x = typeBySuffix g

/-- The guarded registration both loops perform: register unless recognized. -/
def ensureKnown (s : UnstructuredScheme) (gvk : GroupVersionKind) (t : UnstructuredType) :
    GoResult UnstructuredScheme :=
  if !Recognizes s gvk then AddKnownTypeWithName s gvk t else .ok s

/-! ## A concrete instance

The typed kind of the test suite (`mockResource`), attribute maps keyed by
field path, and schemes given by their registrations. -/

namespace Example

open Dynamicutil.Example (Fields Scalar nestedString setField)

/-- The typed kind: type information and identity. -/
structure MockResource where
  APIVersion : String
  Kind : String
  Name : String
  Namespace : String
  deriving DecidableEq, Repr

/-- The function `schema.ParseGroupVersion`: group and version, `none` on error. -/
def parseGroupVersion (gv : String) : Option (String × String) :=
  if gv = "" ∨ gv = "/" then some ("", "")
  else
    match gv.data.count '/' with
    | 0 => some ("", gv)
    | 1 => some (String.mk (gv.data.takeWhile (· != '/')),
        String.mk ((gv.data.dropWhile (· != '/')).drop 1))
    | _ => none

/-- The kind an attribute map declares in `apiVersion` and `kind`. -/
def groupVersionKindOf (m : Fields) : GroupVersionKind :=
  match parseGroupVersion (nestedString m "apiVersion") with
  | none => ⟨"", "", ""⟩
  | some (g, v) => ⟨g, v, nestedString m "kind"⟩

/-- The method `GroupVersion.String`. -/
def groupVersionString (gvk : GroupVersionKind) : String :=
  if gvk.Group ≠ "" then gvk.Group ++ "/" ++ gvk.Version else gvk.Version

/-- Writes `apiVersion` and `kind` of an attribute map. -/
def setGroupVersionKind (m : Fields) (gvk : GroupVersionKind) : Fields :=
  setField (setField m "apiVersion" (.str (groupVersionString gvk))) "kind" (.str gvk.Kind)

/-- Typed to map: empty type information is omitted. -/
def toUnstructured (r : MockResource) : Fields :=
  (if r.APIVersion = "" then [] else [("apiVersion", Scalar.str r.APIVersion)])
    ++ (if r.Kind = "" then [] else [("kind", Scalar.str r.Kind)])
    ++ [("metadata.name", .str r.Name), ("metadata.namespace", .str r.Namespace)]

/-- The library for `MockResource` and `Fields`. -/
def runtime : Runtime MockResource Fields where
  ToUnstructured := fun obj =>
    match obj with
    | .typed r => .ok (toUnstructured r)
    | .unstructured u => .ok u.Object
  GroupVersionKindOf := groupVersionKindOf
  SetGroupVersionKind := setGroupVersionKind

/-- A scheme with the given registrations of kinds to Go type names. An
unstructured object has the kind it declares; a typed object has the kinds its
Go type is registered with, and is unknown when there is none. -/
def schemeOf (reg : List (GroupVersionKind × String)) : Scheme MockResource Fields where
  AllKnownTypes := reg.map (·.1)
  ObjectKinds := fun obj =>
    match obj with
    | .unstructured u =>
      if (groupVersionKindOf u.Object).Kind = "" then
        .error ⟨"unstructured object has no kind", false⟩
      else if (groupVersionKindOf u.Object).Version = "" then
        .error ⟨"unstructured object has no version", false⟩
      else .ok [groupVersionKindOf u.Object]
    | .typed _ =>
      match (reg.filter (fun e => e.2 == "mockResource")).map (·.1) with
      | [] => .error ⟨"no kind is registered for the type fakeutil.mockResource", false⟩
      | gvks => .ok gvks

/-- The kind of the test suite. -/
def testGVK : GroupVersionKind := ⟨"testgroup", "testversion", "TestKind"⟩

/-- A scheme with nothing registered. -/
def emptyScheme : Scheme MockResource Fields := schemeOf []

/-- The typed scheme of the test suite. -/
def typedScheme : Scheme MockResource Fields :=
  schemeOf [(testGVK, "mockResource"), (listKindOf testGVK, "mockResourceList")]

/-- The unstructured fixture of the test suite. -/
def u : Unstructured Fields :=
  ⟨[("apiVersion", .str "testgroup/testversion"), ("kind", .str "TestKind"),
    ("metadata.name", .str "name"), ("metadata.namespace", .str "namespace")]⟩

/-- A typed fixture without type information. -/
def r : MockResource := ⟨"", "", "name", "namespace"⟩

/-- A typed fixture that carries a version and a kind of the core group. -/
def coreFixture : MockResource := ⟨"v1", "TestKind", "name", "namespace"⟩

/-- A kind whose name ends in "List" and that is not a list. -/
def allowListGVK : GroupVersionKind := ⟨"testgroup", "testversion", "AllowList"⟩

/-- An unstructured fixture of that kind. -/
def allowList : Unstructured Fields :=
  ⟨[("apiVersion", .str "testgroup/testversion"), ("kind", .str "AllowList"),
    ("metadata.name", .str "name"), ("metadata.namespace", .str "namespace")]⟩

/-- An unstructured fixture whose kind is the test kind with "List" appended. -/
def listKindFixture : Unstructured Fields :=
  ⟨[("apiVersion", .str "testgroup/testversion"), ("kind", .str "TestKindList"),
    ("metadata.name", .str "items"), ("metadata.namespace", .str "namespace")]⟩

end Example

end Fakeutil

namespace Dynamicutil

/-! ## Theorems -/

section Theorems

variable {σ T M : Type}

open OperationResult

/-- C1: when the initial Get fails with an error that is not a not-found
condition, CreateOrUpdate returns `unchanged` with exactly that error, never
runs the MutateFn, and issues neither a Create nor an Update; the only call is
the Get and the handle is left as it was. -/
theorem createOrUpdate_fetch_error_aborts (k : Apimachinery T M)
    (c : NamespaceableResourceInterface σ M) (obj : Object T M) (f : MutateFn T M)
    (s0 s1 : σ) (e : GoError)
    (hget : fetch k c obj s0 = (.error e, s1)) (hnf : IsNotFound e = false) :
    (CreateOrUpdate k c obj f s0).result = OperationResultNone ∧
    (CreateOrUpdate k c obj f s0).err = some e ∧
    mutateCount (CreateOrUpdate k c obj f s0).calls = 0 ∧
    createCount (CreateOrUpdate k c obj f s0).calls = 0 ∧
    updateCount (CreateOrUpdate k c obj f s0).calls = 0 ∧
    (CreateOrUpdate k c obj f s0).obj = obj ∧
    (CreateOrUpdate k c obj f s0).store = s1 := by
  simp only [fetch, clientOf] at hget
  simp [CreateOrUpdate, hget, hnf, mutateCount, createCount, updateCount,
    Call.isMutate, Call.isCreate, Call.isUpdate]

/-- C1, on the failing reader of the test suite. -/
theorem createOrUpdate_fetch_error_aborts_witness :
    fetch Example.apimachinery Example.errorReader (.unstructured Example.deployUns) []
      = (.error (Errorf "unexpected error"), []) ∧
    (CreateOrUpdate Example.apimachinery Example.errorReader (.unstructured Example.deployUns)
      (Example.deploymentScaler 1) []).err = some (Errorf "unexpected error") :=
  ⟨rfl, (createOrUpdate_fetch_error_aborts Example.apimachinery Example.errorReader
    (.unstructured Example.deployUns) (Example.deploymentScaler 1) [] []
    (Errorf "unexpected error") rfl rfl).2.1⟩

/-- C2: when the MutateFn succeeds but leaves the object with another name or
namespace than it had before the call, CreateOrUpdate returns `unchanged` with
a non-nil error and issues neither a Create nor an Update, whatever the store
answers; whenever the MutateFn did run (not-found path and found path alike)
the error is the identity error of `mutate`. -/
theorem createOrUpdate_key_change_rejected (k : Apimachinery T M)
    (c : NamespaceableResourceInterface σ M) (obj obj1 : Object T M) (f : MutateFn T M)
    (s0 : σ)
    (hcall : f.call obj = (obj1, none))
    (hkey : namespacedNameFromObject k obj1 ≠ namespacedNameFromObject k obj) :
    (CreateOrUpdate k c obj f s0).result = OperationResultNone ∧
    (CreateOrUpdate k c obj f s0).err ≠ none ∧
    createCount (CreateOrUpdate k c obj f s0).calls = 0 ∧
    updateCount (CreateOrUpdate k c obj f s0).calls = 0 ∧
    (mutateCount (CreateOrUpdate k c obj f s0).calls = 1 →
      (CreateOrUpdate k c obj f s0).err
        = some (Errorf "MutateFn cannot mutate object name and/or object namespace")) := by
  have hmut : mutate k f (namespacedNameFromObject k obj) obj
      = (obj1, some (Errorf "MutateFn cannot mutate object name and/or object namespace")) := by
    simp [mutate, hcall, Ne.symm hkey]
  unfold CreateOrUpdate
  simp only [hmut]
  repeat' split
  all_goals simp_all [mutateCount, createCount, updateCount, Call.isMutate, Call.isCreate,
    Call.isUpdate]

/-- C2, on the renaming callbacks of the test suite: on creation, and on an
object that is already stored. -/
theorem createOrUpdate_key_change_rejected_witness :
    ((CreateOrUpdate Example.apimachinery (Example.memClient id)
        (.unstructured Example.deployUns) Example.deploymentRenamer []).result
        = OperationResultNone ∧
      (CreateOrUpdate Example.apimachinery (Example.memClient id)
        (.unstructured Example.deployUns) Example.deploymentRenamer []).calls
        = [.Get "default" "deploy-1", .Mutate]) ∧
    ((CreateOrUpdate Example.apimachinery (Example.memClient id)
        (.unstructured Example.deployUns) Example.deploymentNamespaceChanger
        [(("default", "deploy-1"), Example.deployUns.Object)]).result
        = OperationResultNone ∧
      (CreateOrUpdate Example.apimachinery (Example.memClient id)
        (.unstructured Example.deployUns) Example.deploymentNamespaceChanger
        [(("default", "deploy-1"), Example.deployUns.Object)]).calls
        = [.Get "default" "deploy-1", .Mutate]) :=
  ⟨⟨(createOrUpdate_key_change_rejected Example.apimachinery (Example.memClient id)
      (.unstructured Example.deployUns) _ Example.deploymentRenamer [] rfl (by decide)).1,
    by decide⟩,
   ⟨(createOrUpdate_key_change_rejected Example.apimachinery (Example.memClient id)
      (.unstructured Example.deployUns) _ Example.deploymentNamespaceChanger
      [(("default", "deploy-1"), Example.deployUns.Object)] rfl (by decide)).1,
    by decide⟩⟩

/-- C3, as stated, fails: the object is not in the store, the MutateFn succeeds
and keeps the key, the Create call succeeds, and yet CreateOrUpdate returns
`unchanged` with an error, because the representation that Create returned
does not deserialize into the typed object. -/
theorem createOrUpdate_created_counterexample :
    fetch Example.apimachinery (Example.memClient Example.populateText)
      (.typed Example.deploy) [] = (.error ⟨"not found", true⟩, []) ∧
    (Example.deploymentScaler 1).call (.typed Example.deploy)
      = (.typed Example.scaled, none) ∧
    namespacedNameFromObject Example.apimachinery (.typed Example.scaled)
      = namespacedNameFromObject Example.apimachinery (.typed Example.deploy) ∧
    (CreateOrUpdate Example.apimachinery (Example.memClient Example.populateText)
      (.typed Example.deploy) (Example.deploymentScaler 1) []).calls
      = [.Get "default" "deploy-1", .Mutate,
         .Create "default" ⟨Example.toUnstructured Example.scaled⟩ true] ∧
    (CreateOrUpdate Example.apimachinery (Example.memClient Example.populateText)
      (.typed Example.deploy) (Example.deploymentScaler 1) []).result = OperationResultNone ∧
    (CreateOrUpdate Example.apimachinery (Example.memClient Example.populateText)
      (.typed Example.deploy) (Example.deploymentScaler 1) []).err ≠ none :=
  ⟨rfl, rfl, rfl, rfl, rfl, by decide⟩

/-- C3, amended: when the Get reports not-found, the MutateFn succeeds without
changing the key, the mutated object has a generic form, the Create call
succeeds and the representation it returned deserializes into the handle, then
CreateOrUpdate returns `created` with no error, the calls are exactly one Get,
one run of the MutateFn and one Create with the generic form of the mutated
object (no Update), the store is the one Create left, and the handle holds
what deserializing the returned representation gives: for an unstructured
handle exactly the returned map. -/
theorem createOrUpdate_creates (k : Apimachinery T M)
    (c : NamespaceableResourceInterface σ M) (obj obj1 obj2 : Object T M) (f : MutateFn T M)
    (s0 s1 s2 : σ) (e : GoError) (objUns resultUns : Unstructured M)
    (hget : fetch k c obj s0 = (.error e, s1)) (hnf : IsNotFound e = true)
    (hcall : f.call obj = (obj1, none))
    (hkey : namespacedNameFromObject k obj1 = namespacedNameFromObject k obj)
    (hconv : unstructuredFromObject k obj1 = .ok objUns)
    (hcreate : (clientOf k c obj).Create objUns s1 = (.ok resultUns, s2))
    (hback : objectFromUnstructured k resultUns obj1 = (obj2, none)) :
    (CreateOrUpdate k c obj f s0).result = OperationResultCreated ∧
    (CreateOrUpdate k c obj f s0).err = none ∧
    (CreateOrUpdate k c obj f s0).calls
      = [.Get (namespacedNameFromObject k obj).Namespace (namespacedNameFromObject k obj).Name,
         .Mutate, .Create (namespacedNameFromObject k obj).Namespace objUns true] ∧
    createCount (CreateOrUpdate k c obj f s0).calls = 1 ∧
    updateCount (CreateOrUpdate k c obj f s0).calls = 0 ∧
    (CreateOrUpdate k c obj f s0).obj = obj2 ∧
    (CreateOrUpdate k c obj f s0).store = s2 ∧
    (∀ u, obj1 = .unstructured u →
      (CreateOrUpdate k c obj f s0).obj = .unstructured ⟨resultUns.Object⟩) := by
  have hmut : mutate k f (namespacedNameFromObject k obj) obj = (obj1, none) := by
    simp [mutate, hcall, hkey]
  simp only [fetch, clientOf] at hget hcreate
  refine ⟨?_, ?_, ?_, ?_, ?_, ?_, ?_, ?_⟩
  all_goals try (simp [CreateOrUpdate, hget, hnf, hmut, hconv, hcreate, hback, createCount,
    updateCount, Call.isCreate, Call.isUpdate]; done)
  intro u hu
  subst hu
  simp only [objectFromUnstructured] at hback
  simp [CreateOrUpdate, hget, hnf, hmut, hconv, hcreate, objectFromUnstructured]

/-- C3, amended, on the creation scenarios of the test suite: a typed handle
and an unstructured handle against an empty store. -/
theorem createOrUpdate_creates_witness :
    (CreateOrUpdate Example.apimachinery (Example.memClient id)
      (.typed Example.deploy) (Example.deploymentScaler 1) []).result
      = OperationResultCreated ∧
    (CreateOrUpdate Example.apimachinery (Example.memClient id)
      (.typed Example.deploy) (Example.deploymentScaler 1) []).obj
      = .typed Example.scaled ∧
    (CreateOrUpdate Example.apimachinery (Example.memClient id)
      (.unstructured Example.deployUns) (Example.deploymentScaler 1) []).result
      = OperationResultCreated :=
  ⟨(createOrUpdate_creates Example.apimachinery (Example.memClient id)
      (.typed Example.deploy) _ _ (Example.deploymentScaler 1) [] [] _ ⟨"not found", true⟩
      _ _ rfl rfl rfl rfl rfl rfl rfl).1,
   (createOrUpdate_creates Example.apimachinery (Example.memClient id)
      (.typed Example.deploy) _ (.typed Example.scaled)
      (Example.deploymentScaler 1) [] [] _ ⟨"not found", true⟩
      _ _ rfl rfl rfl rfl rfl rfl rfl).2.2.2.2.2.1,
   (createOrUpdate_creates Example.apimachinery (Example.memClient id)
      (.unstructured Example.deployUns) _ _ (Example.deploymentScaler 1) [] [] _
      ⟨"not found", true⟩ _ _ rfl rfl rfl rfl rfl rfl rfl).1⟩

/-- C4: when the object is in the store (the Get succeeds and the snapshot
`existing` is deserialized from the fetched representation) and the state
`obj1` that `mutate` leaves is DeepEqual to that snapshot, CreateOrUpdate
returns `unchanged` with no error and issues no Create and no Update: the calls
are the Get and the run of the MutateFn, and the store is as the Get left it. -/
theorem createOrUpdate_equal_is_unchanged (k : Apimachinery T M)
    (c : NamespaceableResourceInterface σ M) (obj existing0 existing obj1 : Object T M)
    (f : MutateFn T M) (s0 s1 : σ) (resultUns : Unstructured M)
    (hget : fetch k c obj s0 = (.ok resultUns, s1))
    (hnew : newObject k obj = .ok existing0)
    (hsnap : objectFromUnstructured k resultUns existing0 = (existing, none))
    (hmut : mutate k f (namespacedNameFromObject k obj) obj = (obj1, none))
    (heq : k.DeepEqual existing obj1 = true) :
    (CreateOrUpdate k c obj f s0).result = OperationResultNone ∧
    (CreateOrUpdate k c obj f s0).err = none ∧
    createCount (CreateOrUpdate k c obj f s0).calls = 0 ∧
    updateCount (CreateOrUpdate k c obj f s0).calls = 0 ∧
    (CreateOrUpdate k c obj f s0).calls
      = [.Get (namespacedNameFromObject k obj).Namespace (namespacedNameFromObject k obj).Name,
         .Mutate] ∧
    (CreateOrUpdate k c obj f s0).obj = obj1 ∧
    (CreateOrUpdate k c obj f s0).store = s1 := by
  simp only [fetch, clientOf] at hget
  simp [CreateOrUpdate, hget, hnew, hsnap, hmut, heq, createCount, updateCount,
    Call.isCreate, Call.isUpdate]

/-- C4, on a stored deployment with one replica and a callback that sets one
replica again. -/
theorem createOrUpdate_equal_is_unchanged_witness :
    (CreateOrUpdate Example.apimachinery (Example.memClient id)
      (.typed Example.deploy) (Example.deploymentScaler 1)
      Example.seeded).result
      = OperationResultNone ∧
    (CreateOrUpdate Example.apimachinery (Example.memClient id)
      (.typed Example.deploy) (Example.deploymentScaler 1)
      Example.seeded).err
      = none :=
  ⟨(createOrUpdate_equal_is_unchanged Example.apimachinery (Example.memClient id)
      (.typed Example.deploy) _ _ _ (Example.deploymentScaler 1) Example.seeded _ _
      rfl rfl rfl rfl rfl).1,
   (createOrUpdate_equal_is_unchanged Example.apimachinery (Example.memClient id)
      (.typed Example.deploy) _ _ _ (Example.deploymentScaler 1) Example.seeded _ _
      rfl rfl rfl rfl rfl).2.1⟩

/-- C5, as stated, fails: the object is in the store, the mutated state differs
from the snapshot, the MutateFn keeps the key, the Update call succeeds, and
yet CreateOrUpdate returns `unchanged` with an error, because the
representation that Update returned does not deserialize into the typed
object. -/
theorem createOrUpdate_updated_counterexample :
    fetch Example.apimachinery (Example.memClient Example.populateText)
      (.typed Example.deploy)
      Example.seeded
      = (.ok ⟨Example.toUnstructured Example.scaled⟩,
         Example.seeded) ∧
    mutate Example.apimachinery (Example.deploymentScaler 2)
      (namespacedNameFromObject Example.apimachinery (.typed Example.deploy))
      (.typed Example.deploy) = (.typed ⟨"deploy-1", "default", some 2, 0⟩, none) ∧
    Example.apimachinery.DeepEqual (.typed Example.scaled)
      (.typed ⟨"deploy-1", "default", some 2, 0⟩) = false ∧
    (CreateOrUpdate Example.apimachinery (Example.memClient Example.populateText)
      (.typed Example.deploy) (Example.deploymentScaler 2)
      Example.seeded).calls
      = [.Get "default" "deploy-1", .Mutate,
         .Update "default" ⟨Example.toUnstructured ⟨"deploy-1", "default", some 2, 0⟩⟩ true] ∧
    (CreateOrUpdate Example.apimachinery (Example.memClient Example.populateText)
      (.typed Example.deploy) (Example.deploymentScaler 2)
      Example.seeded).result
      = OperationResultNone ∧
    (CreateOrUpdate Example.apimachinery (Example.memClient Example.populateText)
      (.typed Example.deploy) (Example.deploymentScaler 2)
      Example.seeded).err
      ≠ none :=
  ⟨rfl, rfl, rfl, rfl, rfl, by decide⟩

/-- The in-memory store returns at a key what was put there. -/
theorem Example.lookup_put (s : Example.Store) (key : String × String) (m : Example.Fields) :
    (s.put key m).lookup key = some m := by
  simp [Example.Store.put, List.lookup]

/-- The in-memory client that adds nothing persists what Update is given: a
Get of the updated name returns the object that was passed to Update. -/
theorem Example.memClient_persists (ns : String) (u r : Unstructured Example.Fields)
    (t t2 : Example.Store)
    (h : ((Example.memClient id).Namespace ns).Update u t = (.ok r, t2)) :
    (((Example.memClient id).Namespace ns).Get
      (Example.apimachinery.mapName u.Object) t2).1 = .ok u := by
  simp only [Example.memClient, Example.apimachinery, id] at h ⊢
  split at h
  · simp at h
  · simp only [Prod.mk.injEq] at h
    rw [← h.2, Example.lookup_put]

/-- C5, amended: when the object is in the store (the Get succeeds and the
snapshot `existing` is deserialized from the fetched representation), the
MutateFn succeeds and keeps the key, the mutated state `obj1` is not DeepEqual
to the snapshot, `obj1` has a generic form, the Update call succeeds and the
representation it returned deserializes into the handle, then CreateOrUpdate
returns `updated` with no error, the calls are exactly one Get, one run of the
MutateFn and one Update with the generic form of the whole mutated object (no
Create; the argument is built from `obj1` alone, not from what was fetched),
the handle holds what deserializing the returned representation gives, and on
a client that persists what Update is given, with a converter that keeps the
name, a later Get of the key returns that generic form of the mutated object. -/
theorem createOrUpdate_updates (k : Apimachinery T M)
    (c : NamespaceableResourceInterface σ M) (obj existing0 existing obj1 obj2 : Object T M)
    (f : MutateFn T M) (s0 s1 s2 : σ) (resultUns objUns resultUns2 : Unstructured M)
    (hget : fetch k c obj s0 = (.ok resultUns, s1))
    (hnew : newObject k obj = .ok existing0)
    (hsnap : objectFromUnstructured k resultUns existing0 = (existing, none))
    (hcall : f.call obj = (obj1, none))
    (hkey : namespacedNameFromObject k obj1 = namespacedNameFromObject k obj)
    (hne : k.DeepEqual existing obj1 = false)
    (hconv : unstructuredFromObject k obj1 = .ok objUns)
    (hupd : (clientOf k c obj).Update objUns s1 = (.ok resultUns2, s2))
    (hback : objectFromUnstructured k resultUns2 obj1 = (obj2, none)) :
    (CreateOrUpdate k c obj f s0).result = OperationResultUpdated ∧
    (CreateOrUpdate k c obj f s0).err = none ∧
    (CreateOrUpdate k c obj f s0).calls
      = [.Get (namespacedNameFromObject k obj).Namespace (namespacedNameFromObject k obj).Name,
         .Mutate, .Update (namespacedNameFromObject k obj).Namespace objUns true] ∧
    updateCount (CreateOrUpdate k c obj f s0).calls = 1 ∧
    createCount (CreateOrUpdate k c obj f s0).calls = 0 ∧
    (CreateOrUpdate k c obj f s0).obj = obj2 ∧
    (CreateOrUpdate k c obj f s0).store = s2 ∧
    ((∀ (u r : Unstructured M) (t t2 : σ), (clientOf k c obj).Update u t = (.ok r, t2) →
        ((clientOf k c obj).Get (k.mapName u.Object) t2).1 = .ok u) →
      (∀ t m, k.ToUnstructured t = .ok m → k.mapName m = k.typedName t) →
      ((clientOf k c obj).Get (namespacedNameFromObject k obj).Name
        (CreateOrUpdate k c obj f s0).store).1 = .ok objUns) := by
  have hmut : mutate k f (namespacedNameFromObject k obj) obj = (obj1, none) := by
    simp [mutate, hcall, hkey]
  have hstore : (CreateOrUpdate k c obj f s0).store = s2 := by
    simp only [fetch, clientOf] at hget hupd
    simp [CreateOrUpdate, hget, hnew, hsnap, hmut, hne, hconv, hupd, hback]
  refine ⟨?_, ?_, ?_, ?_, ?_, ?_, hstore, ?_⟩
  all_goals try (simp only [fetch, clientOf] at hget hupd; simp [CreateOrUpdate, hget, hnew,
    hsnap, hmut, hne, hconv, hupd, hback, createCount, updateCount, Call.isCreate,
    Call.isUpdate]; done)
  intro hpersist hname
  have hn : k.mapName objUns.Object = (namespacedNameFromObject k obj).Name := by
    rw [← hkey]
    cases obj1 with
    | typed t =>
      simp only [unstructuredFromObject] at hconv
      split at hconv
      · simp at hconv
      · rename_i m hm
        simp only [Except.ok.injEq] at hconv
        subst hconv
        simpa [namespacedNameFromObject] using hname t m hm
    | unstructured u =>
      simp only [unstructuredFromObject, Except.ok.injEq] at hconv
      subst hconv
      rfl
  rw [hstore, ← hn]
  exact hpersist objUns resultUns2 s1 s2 hupd

/-- C5, amended, on the stored deployment with one replica and a callback
that sets two replicas. -/
theorem createOrUpdate_updates_witness :
    (CreateOrUpdate Example.apimachinery (Example.memClient id)
      (.typed Example.deploy) (Example.deploymentScaler 2) Example.seeded).result
      = OperationResultUpdated ∧
    (CreateOrUpdate Example.apimachinery (Example.memClient id)
      (.typed Example.deploy) (Example.deploymentScaler 2) Example.seeded).obj
      = .typed ⟨"deploy-1", "default", some 2, 0⟩ ∧
    ((clientOf Example.apimachinery (Example.memClient id) (.typed Example.deploy)).Get "deploy-1"
      (CreateOrUpdate Example.apimachinery (Example.memClient id)
        (.typed Example.deploy) (Example.deploymentScaler 2) Example.seeded).store).1
      = .ok ⟨Example.toUnstructured ⟨"deploy-1", "default", some 2, 0⟩⟩ :=
  ⟨(createOrUpdate_updates Example.apimachinery (Example.memClient id)
      (.typed Example.deploy) _ _ _ _ (Example.deploymentScaler 2) Example.seeded _ _ _ _ _
      rfl rfl rfl rfl rfl rfl rfl rfl rfl).1,
   (createOrUpdate_updates Example.apimachinery (Example.memClient id)
      (.typed Example.deploy) _ _ _ (.typed ⟨"deploy-1", "default", some 2, 0⟩)
      (Example.deploymentScaler 2) Example.seeded _ _ _ _ _
      rfl rfl rfl rfl rfl rfl rfl rfl rfl).2.2.2.2.2.1,
   (createOrUpdate_updates Example.apimachinery (Example.memClient id)
      (.typed Example.deploy) _ _ _ _ (Example.deploymentScaler 2) Example.seeded _ _ _
      ⟨Example.toUnstructured ⟨"deploy-1", "default", some 2, 0⟩⟩ _
      rfl rfl rfl rfl rfl rfl rfl rfl rfl).2.2.2.2.2.2.2
     (fun u r t t2 h => Example.memClient_persists _ u r t t2 h)
     (fun t m h => by
       simp only [Example.apimachinery, Except.ok.injEq] at h
       subst h
       cases t with
       | mk n ns r ur => cases r <;> rfl)⟩

/-- C6: in every call in which the MutateFn runs and returns an error `e`,
after a not-found Get and after a successful Get alike, CreateOrUpdate returns
`unchanged` together with `e` itself and issues no Create and no Update, so the
store is left as the Get left it. -/
theorem createOrUpdate_mutate_error_aborts (k : Apimachinery T M)
    (c : NamespaceableResourceInterface σ M) (obj obj1 : Object T M) (f : MutateFn T M)
    (s0 : σ) (e : GoError)
    (hcall : f.call obj = (obj1, some e))
    (hran : 0 < mutateCount (CreateOrUpdate k c obj f s0).calls) :
    (CreateOrUpdate k c obj f s0).result = OperationResultNone ∧
    (CreateOrUpdate k c obj f s0).err = some e ∧
    createCount (CreateOrUpdate k c obj f s0).calls = 0 ∧
    updateCount (CreateOrUpdate k c obj f s0).calls = 0 ∧
    (CreateOrUpdate k c obj f s0).store = (fetch k c obj s0).2 ∧
    (CreateOrUpdate k c obj f s0).obj = obj1 := by
  have hmut : mutate k f (namespacedNameFromObject k obj) obj = (obj1, some e) := by
    simp [mutate, hcall]
  revert hran
  unfold CreateOrUpdate fetch clientOf
  simp only [hmut]
  repeat' split
  all_goals simp_all [mutateCount, createCount, updateCount, Call.isMutate, Call.isCreate,
    Call.isUpdate]

/-- C6, on a failing callback: against an empty store (not-found path) and
against a store that holds the object (found path). -/
theorem createOrUpdate_mutate_error_aborts_witness :
    ((CreateOrUpdate Example.apimachinery (Example.memClient id)
        (.typed Example.deploy) Example.failingMutate []).err = some (Errorf "mutate failed") ∧
      (CreateOrUpdate Example.apimachinery (Example.memClient id)
        (.typed Example.deploy) Example.failingMutate []).store = []) ∧
    ((CreateOrUpdate Example.apimachinery (Example.memClient id)
        (.typed Example.deploy) Example.failingMutate Example.seeded).err
        = some (Errorf "mutate failed") ∧
      (CreateOrUpdate Example.apimachinery (Example.memClient id)
        (.typed Example.deploy) Example.failingMutate Example.seeded).store = Example.seeded) :=
  ⟨⟨(createOrUpdate_mutate_error_aborts Example.apimachinery (Example.memClient id)
        (.typed Example.deploy) _ Example.failingMutate [] (Errorf "mutate failed") rfl
        (by decide)).2.1,
     (createOrUpdate_mutate_error_aborts Example.apimachinery (Example.memClient id)
        (.typed Example.deploy) _ Example.failingMutate [] (Errorf "mutate failed") rfl
        (by decide)).2.2.2.2.1⟩,
   ⟨(createOrUpdate_mutate_error_aborts Example.apimachinery (Example.memClient id)
        (.typed Example.deploy) _ Example.failingMutate Example.seeded (Errorf "mutate failed")
        rfl (by decide)).2.1,
     (createOrUpdate_mutate_error_aborts Example.apimachinery (Example.memClient id)
        (.typed Example.deploy) _ Example.failingMutate Example.seeded (Errorf "mutate failed")
        rfl (by decide)).2.2.2.2.1⟩⟩

/-- C7, evaluated where the code departs from it: a typed deployment against a
server that reports a status field as text. On an empty store the Create
succeeds and the object is stored, on a seeded store the Update succeeds and
the stored object is replaced, and both calls return `unchanged` (with the
deserialization error). -/
theorem createOrUpdate_unchanged_after_successful_write :
    ((CreateOrUpdate Example.apimachinery (Example.memClient Example.populateText)
        (.typed Example.deploy) (Example.deploymentScaler 1) []).result = OperationResultNone ∧
      (CreateOrUpdate Example.apimachinery (Example.memClient Example.populateText)
        (.typed Example.deploy) (Example.deploymentScaler 1) []).calls.any
          Call.isSuccessfulWrite = true ∧
      (CreateOrUpdate Example.apimachinery (Example.memClient Example.populateText)
        (.typed Example.deploy) (Example.deploymentScaler 1) []).store
        = [(("default", "deploy-1"),
            Example.populateText (Example.toUnstructured Example.scaled))]) ∧
    ((CreateOrUpdate Example.apimachinery (Example.memClient Example.populateText)
        (.typed Example.deploy) (Example.deploymentScaler 2) Example.seeded).result
        = OperationResultNone ∧
      (CreateOrUpdate Example.apimachinery (Example.memClient Example.populateText)
        (.typed Example.deploy) (Example.deploymentScaler 2) Example.seeded).calls.any
          Call.isSuccessfulWrite = true ∧
      (CreateOrUpdate Example.apimachinery (Example.memClient Example.populateText)
        (.typed Example.deploy) (Example.deploymentScaler 2) Example.seeded).store
        ≠ Example.seeded) :=
  ⟨⟨rfl, rfl, rfl⟩, ⟨rfl, rfl, by decide⟩⟩

/-- The calls of CreateOrUpdate have one of four shapes: the Get alone; the Get
and the run of the MutateFn; these two and a Create; these two and an Update. -/
theorem createOrUpdate_calls_shape (k : Apimachinery T M)
    (c : NamespaceableResourceInterface σ M) (obj : Object T M) (f : MutateFn T M) (s0 : σ) :
    (CreateOrUpdate k c obj f s0).calls
      = [.Get (namespacedNameFromObject k obj).Namespace (namespacedNameFromObject k obj).Name] ∨
    (CreateOrUpdate k c obj f s0).calls
      = [.Get (namespacedNameFromObject k obj).Namespace (namespacedNameFromObject k obj).Name,
         .Mutate] ∨
    (∃ u ok, (CreateOrUpdate k c obj f s0).calls
      = [.Get (namespacedNameFromObject k obj).Namespace (namespacedNameFromObject k obj).Name,
         .Mutate, .Create (namespacedNameFromObject k obj).Namespace u ok]) ∨
    (∃ u ok, (CreateOrUpdate k c obj f s0).calls
      = [.Get (namespacedNameFromObject k obj).Namespace (namespacedNameFromObject k obj).Name,
         .Mutate, .Update (namespacedNameFromObject k obj).Namespace u ok]) := by
  unfold CreateOrUpdate
  dsimp only
  rcases (c.Namespace (namespacedNameFromObject k obj).Namespace).Get
      (namespacedNameFromObject k obj).Name s0 with ⟨e | r, s1⟩
  · dsimp only
    split
    · simp
    · rcases mutate k f (namespacedNameFromObject k obj) obj with ⟨obj1, _ | e1⟩
      · dsimp only
        rcases unstructuredFromObject k obj1 with e2 | objUns
        · simp
        · dsimp only
          rcases (c.Namespace (namespacedNameFromObject k obj).Namespace).Create objUns s1
            with ⟨e3 | r3, s2⟩
          · simp
          · dsimp only
            rcases objectFromUnstructured k r3 obj1 with ⟨obj2, _ | e4⟩ <;> simp
      · simp
  · dsimp only
    rcases newObject k obj with e1 | existing0
    · simp
    · dsimp only
      rcases objectFromUnstructured k r existing0 with ⟨existing, _ | e2⟩
      · dsimp only
        rcases mutate k f (namespacedNameFromObject k obj) obj with ⟨obj1, _ | e3⟩
        · dsimp only
          split
          · simp
          · rcases unstructuredFromObject k obj1 with e4 | objUns
            · simp
            · dsimp only
              rcases (c.Namespace (namespacedNameFromObject k obj).Namespace).Update objUns s1
                with ⟨e5 | r5, s2⟩
              · simp
              · dsimp only
                rcases objectFromUnstructured k r5 obj1 with ⟨obj2, _ | e6⟩ <;> simp
        · simp
      · simp

/-- C8: in every call of CreateOrUpdate, whatever the store and the MutateFn
do, the first call issued is the Get and it is the only Get, the number of
Create calls plus the number of Update calls is at most one, and Create and
Update are never both called. -/
theorem createOrUpdate_at_most_one_write (k : Apimachinery T M)
    (c : NamespaceableResourceInterface σ M) (obj : Object T M) (f : MutateFn T M) (s0 : σ) :
    (∃ rest, (CreateOrUpdate k c obj f s0).calls
        = .Get (namespacedNameFromObject k obj).Namespace (namespacedNameFromObject k obj).Name
          :: rest ∧ getCount rest = 0) ∧
    getCount (CreateOrUpdate k c obj f s0).calls = 1 ∧
    createCount (CreateOrUpdate k c obj f s0).calls
      + updateCount (CreateOrUpdate k c obj f s0).calls ≤ 1 ∧
    ¬ (0 < createCount (CreateOrUpdate k c obj f s0).calls ∧
       0 < updateCount (CreateOrUpdate k c obj f s0).calls) := by
  rcases createOrUpdate_calls_shape k c obj f s0 with h | h | ⟨u, ok, h⟩ | ⟨u, ok, h⟩ <;>
    simp [h, getCount, createCount, updateCount, Call.isGet, Call.isCreate, Call.isUpdate]

/-- C9, as stated, fails: the Get succeeds, and the MutateFn is not run at
all, because the fetched representation does not deserialize into the
snapshot. -/
theorem createOrUpdate_mutate_once_counterexample :
    fetch Example.apimachinery (Example.memClient id) (.typed Example.deploy) Example.malformed
      = (.ok ⟨[("metadata.name", .str "deploy-1"), ("metadata.namespace", .str "default"),
               ("spec.replicas", .str "many")]⟩, Example.malformed) ∧
    mutateCount (CreateOrUpdate Example.apimachinery (Example.memClient id)
      (.typed Example.deploy) (Example.deploymentScaler 1) Example.malformed).calls = 0 ∧
    (CreateOrUpdate Example.apimachinery (Example.memClient id)
      (.typed Example.deploy) (Example.deploymentScaler 1) Example.malformed).calls
      = [.Get "default" "deploy-1"] :=
  ⟨rfl, rfl, rfl⟩

/-- C9, amended: in every call of CreateOrUpdate the MutateFn runs at most
once; it runs exactly once when the Get reports not-found, and when the Get
succeeds and the snapshot is allocated and deserialized from the fetched
representation; it does not run when the Get fails for another reason, nor
when the Get succeeds but the snapshot cannot be allocated or deserialized. -/
theorem createOrUpdate_mutate_count (k : Apimachinery T M)
    (c : NamespaceableResourceInterface σ M) (obj : Object T M) (f : MutateFn T M) (s0 : σ) :
    mutateCount (CreateOrUpdate k c obj f s0).calls ≤ 1 ∧
    (∀ e, (fetch k c obj s0).1 = .error e → IsNotFound e = false →
      mutateCount (CreateOrUpdate k c obj f s0).calls = 0) ∧
    (∀ e, (fetch k c obj s0).1 = .error e → IsNotFound e = true →
      mutateCount (CreateOrUpdate k c obj f s0).calls = 1) ∧
    (∀ r existing0 existing, (fetch k c obj s0).1 = .ok r → newObject k obj = .ok existing0 →
      objectFromUnstructured k r existing0 = (existing, none) →
      mutateCount (CreateOrUpdate k c obj f s0).calls = 1) ∧
    (∀ r e, (fetch k c obj s0).1 = .ok r → newObject k obj = .error e →
      mutateCount (CreateOrUpdate k c obj f s0).calls = 0) ∧
    (∀ r existing0 e, (fetch k c obj s0).1 = .ok r → newObject k obj = .ok existing0 →
      (objectFromUnstructured k r existing0).2 = some e →
      mutateCount (CreateOrUpdate k c obj f s0).calls = 0) := by
  rcases hG : fetch k c obj s0 with ⟨e | r, s1⟩
  all_goals have hG2 := hG
  all_goals simp only [fetch, clientOf] at hG2
  · rcases hm : mutate k f (namespacedNameFromObject k obj) obj with ⟨obj1, _ | e1⟩
    · rcases hu : unstructuredFromObject k obj1 with e2 | objUns
      · cases hnf : IsNotFound e <;>
          simp [CreateOrUpdate, hG2, hm, hu, hnf, mutateCount, Call.isMutate]
      · rcases hc : (c.Namespace (namespacedNameFromObject k obj).Namespace).Create objUns s1
          with ⟨e3 | r3, s2⟩
        · cases hnf : IsNotFound e <;>
            simp [CreateOrUpdate, hG2, hm, hu, hc, hnf, mutateCount, Call.isMutate]
        · rcases hb : objectFromUnstructured k r3 obj1 with ⟨obj2, _ | e4⟩ <;>
            cases hnf : IsNotFound e <;>
            simp [CreateOrUpdate, hG2, hm, hu, hc, hb, hnf, mutateCount, Call.isMutate]
    · cases hnf : IsNotFound e <;>
        simp [CreateOrUpdate, hG2, hm, hnf, mutateCount, Call.isMutate]
  · rcases hn : newObject k obj with e1 | existing0
    · simp [CreateOrUpdate, hG2, hn, mutateCount, Call.isMutate]
    · rcases hs : objectFromUnstructured k r existing0 with ⟨existing, _ | e2⟩
      · have hs2 : ∀ (r1 : Unstructured M) (x : Object T M) (e : GoError),
            r = r1 → existing0 = x → ¬ (objectFromUnstructured k r1 x).2 = some e := by
          intro r1 x e h1 h2
          subst h1 h2
          simp [hs]
        rcases hm : mutate k f (namespacedNameFromObject k obj) obj with ⟨obj1, _ | e3⟩
        · cases hd : k.DeepEqual existing obj1
          · rcases hu : unstructuredFromObject k obj1 with e4 | objUns
            · simpa [CreateOrUpdate, hG2, hn, hs, hm, hd, hu, mutateCount, Call.isMutate] using hs2
            · rcases hc : (c.Namespace (namespacedNameFromObject k obj).Namespace).Update objUns s1
                with ⟨e5 | r5, s2⟩
              · simpa [CreateOrUpdate, hG2, hn, hs, hm, hd, hu, hc, mutateCount, Call.isMutate] using hs2
              · rcases hb : objectFromUnstructured k r5 obj1 with ⟨obj2, _ | e6⟩ <;>
                  simpa [CreateOrUpdate, hG2, hn, hs, hm, hd, hu, hc, hb, mutateCount,
                    Call.isMutate] using hs2
          · simpa [CreateOrUpdate, hG2, hn, hs, hm, hd, mutateCount, Call.isMutate] using hs2
        · simpa [CreateOrUpdate, hG2, hn, hs, hm, mutateCount, Call.isMutate] using hs2
      · have hs3 : ∀ (r1 : Unstructured M) (x y : Object T M),
            r = r1 → existing0 = x → ¬ objectFromUnstructured k r1 x = (y, none) := by
          intro r1 x y h1 h2
          subst h1 h2
          simp [hs]
        simpa [CreateOrUpdate, hG2, hn, hs, mutateCount, Call.isMutate] using hs3

/-- C9, amended, on the typed deployment: one run against an empty store, one
run against a store that holds it, none against the failing reader and none
against a store whose object does not deserialize. -/
theorem createOrUpdate_mutate_count_witness :
    mutateCount (CreateOrUpdate Example.apimachinery (Example.memClient id)
      (.typed Example.deploy) (Example.deploymentScaler 1) []).calls = 1 ∧
    mutateCount (CreateOrUpdate Example.apimachinery (Example.memClient id)
      (.typed Example.deploy) (Example.deploymentScaler 1) Example.seeded).calls = 1 ∧
    mutateCount (CreateOrUpdate Example.apimachinery Example.errorReader
      (.typed Example.deploy) (Example.deploymentScaler 1) []).calls = 0 ∧
    mutateCount (CreateOrUpdate Example.apimachinery (Example.memClient id)
      (.typed Example.deploy) (Example.deploymentScaler 1) Example.malformed).calls = 0 :=
  ⟨(createOrUpdate_mutate_count Example.apimachinery (Example.memClient id)
      (.typed Example.deploy) (Example.deploymentScaler 1) []).2.2.1 ⟨"not found", true⟩ rfl rfl,
   (createOrUpdate_mutate_count Example.apimachinery (Example.memClient id)
      (.typed Example.deploy) (Example.deploymentScaler 1) Example.seeded).2.2.2.1
      ⟨Example.toUnstructured Example.scaled⟩ (.typed ⟨"", "", none, 0⟩) (.typed Example.scaled)
      rfl rfl rfl,
   (createOrUpdate_mutate_count Example.apimachinery Example.errorReader
      (.typed Example.deploy) (Example.deploymentScaler 1) []).2.1 (Errorf "unexpected error")
      rfl rfl,
   (createOrUpdate_mutate_count Example.apimachinery (Example.memClient id)
      (.typed Example.deploy) (Example.deploymentScaler 1) Example.malformed).2.2.2.2.2
      ⟨[("metadata.name", .str "deploy-1"), ("metadata.namespace", .str "default"),
        ("spec.replicas", .str "many")]⟩ (.typed ⟨"", "", none, 0⟩)
      (Errorf "cannot unmarshal string into field spec.replicas") rfl rfl rfl⟩

/-- C10, evaluated where the code departs from it: CreateOrUpdate takes a
client, an object and a MutateFn and nothing else, and compares with DeepEqual
over all fields. The deployment with one replica is in the store, the MutateFn
only sets the status field `unavailableReplicas` to 32, and the call returns
`updated` after one Update with the object that differs from the stored one in
that status field only. -/
theorem createOrUpdate_status_only_change_updates :
    Example.statusMutate.call (.typed Example.scaled)
      = (.typed { Example.scaled with UnavailableReplicas := 32 }, none) ∧
    (CreateOrUpdate Example.apimachinery (Example.memClient id)
      (.typed Example.scaled) Example.statusMutate Example.seeded).result
      = OperationResultUpdated ∧
    (CreateOrUpdate Example.apimachinery (Example.memClient id)
      (.typed Example.scaled) Example.statusMutate Example.seeded).err = none ∧
    (CreateOrUpdate Example.apimachinery (Example.memClient id)
      (.typed Example.scaled) Example.statusMutate Example.seeded).calls
      = [.Get "default" "deploy-1", .Mutate,
         .Update "default"
           ⟨Example.toUnstructured { Example.scaled with UnavailableReplicas := 32 }⟩ true] ∧
    updateCount (CreateOrUpdate Example.apimachinery (Example.memClient id)
      (.typed Example.scaled) Example.statusMutate Example.seeded).calls = 1 :=
  ⟨rfl, rfl, rfl, rfl, rfl⟩

/-- C11, evaluated where the code departs from it. Against a server that adds
nothing, a first call creates the deployment and a second call on a fresh copy
of the original object with the same MutateFn returns `unchanged`. Against a
server that fills in a status field, the first call returns `created`, a Get
returns the stored object with that field, and the second call on a fresh copy
of the original object with the same MutateFn issues one Update and returns
`updated`: the snapshot carries the server-populated field, the fresh copy
does not, and DeepEqual compares all fields. -/
theorem createOrUpdate_reapply_updates :
    ((CreateOrUpdate Example.apimachinery (Example.memClient id)
        (.typed Example.deploy) (Example.deploymentScaler 1) []).result
        = OperationResultCreated ∧
      (CreateOrUpdate Example.apimachinery (Example.memClient id)
        (.typed Example.deploy) (Example.deploymentScaler 1)
        (CreateOrUpdate Example.apimachinery (Example.memClient id)
          (.typed Example.deploy) (Example.deploymentScaler 1) []).store).result
        = OperationResultNone) ∧
    ((CreateOrUpdate Example.apimachinery (Example.memClient Example.populateStatus)
        (.typed Example.deploy) (Example.deploymentScaler 1) []).result
        = OperationResultCreated ∧
      fetch Example.apimachinery (Example.memClient Example.populateStatus)
        (.typed Example.deploy)
        (CreateOrUpdate Example.apimachinery (Example.memClient Example.populateStatus)
          (.typed Example.deploy) (Example.deploymentScaler 1) []).store
        = (.ok ⟨Example.populateStatus (Example.toUnstructured Example.scaled)⟩,
           [(("default", "deploy-1"),
             Example.populateStatus (Example.toUnstructured Example.scaled))]) ∧
      (CreateOrUpdate Example.apimachinery (Example.memClient Example.populateStatus)
        (.typed Example.deploy) (Example.deploymentScaler 1)
        (CreateOrUpdate Example.apimachinery (Example.memClient Example.populateStatus)
          (.typed Example.deploy) (Example.deploymentScaler 1) []).store).result
        = OperationResultUpdated ∧
      (CreateOrUpdate Example.apimachinery (Example.memClient Example.populateStatus)
        (.typed Example.deploy) (Example.deploymentScaler 1)
        (CreateOrUpdate Example.apimachinery (Example.memClient Example.populateStatus)
          (.typed Example.deploy) (Example.deploymentScaler 1) []).store).err = none ∧
      updateCount (CreateOrUpdate Example.apimachinery (Example.memClient Example.populateStatus)
        (.typed Example.deploy) (Example.deploymentScaler 1)
        (CreateOrUpdate Example.apimachinery (Example.memClient Example.populateStatus)
          (.typed Example.deploy) (Example.deploymentScaler 1) []).store).calls = 1) :=
  ⟨⟨rfl, rfl⟩, ⟨rfl, rfl, rfl, rfl, rfl⟩⟩

/-- C12: for every unstructured object `x` and every unstructured target `y`,
`unstructuredFromObject` returns `x` itself, whatever the converter is (it is
not consulted), and `objectFromUnstructured` of that result into `y` reports no
error and leaves the target with exactly the map of `x`: nothing of what `y`
held remains, any other target ends in the same state. -/
theorem unstructured_passthrough_and_overwrite (k k2 : Apimachinery T M)
    (x y y2 : Unstructured M) :
    unstructuredFromObject k (.unstructured x) = .ok x ∧
    unstructuredFromObject k (.unstructured x) = unstructuredFromObject k2 (.unstructured x) ∧
    (∀ uns, unstructuredFromObject k (.unstructured x) = .ok uns →
      objectFromUnstructured k uns (.unstructured y) = (.unstructured ⟨x.Object⟩, none)) ∧
    objectFromUnstructured k x (.unstructured y) = (.unstructured x, none) ∧
    objectFromUnstructured k x (.unstructured y)
      = objectFromUnstructured k x (.unstructured y2) := by
  refine ⟨rfl, rfl, ?_, rfl, rfl⟩
  intro uns h
  simp only [unstructuredFromObject, Except.ok.injEq] at h
  subst h
  rfl

end Theorems

end Dynamicutil

namespace Fakeutil

/-! ## Theorems -/

section Theorems

open Dynamicutil (GoError Unstructured Object)

variable {T M : Type}

/-- C13, as stated, fails: a typed fixture that carries a version ("v1") and a
kind, in the core group, does not convert against an empty scheme, and against
a scheme that knows its type its version is replaced by the one the scheme
reports. -/
theorem convertToUnstructured_core_group_counterexample :
    Example.runtime.GroupVersionKindOf (Example.toUnstructured Example.coreFixture)
      = ⟨"", "v1", "TestKind"⟩ ∧
    convertToUnstructured Example.runtime Example.emptyScheme (.typed Example.coreFixture)
      = .err (Wrapf "failed to convert to unstructured - unable to get GVK "
          ⟨"no kind is registered for the type fakeutil.mockResource", false⟩) ∧
    (∃ m, convertToUnstructured Example.runtime Example.typedScheme (.typed Example.coreFixture)
        = .ok ⟨m⟩ ∧
      Example.runtime.GroupVersionKindOf m = ⟨"testgroup", "testversion", "TestKind"⟩) :=
  ⟨rfl, rfl, _, rfl, rfl⟩

/-- C13, amended: the guard is on the group and the kind. For every fixture
that converts to a map `m`: when `m` declares a non-empty group and a non-empty
kind, convertToUnstructured succeeds with exactly `m`, whatever the scheme is;
when the group or the kind is empty, it asks the scheme, fails with the wrapped
error if the scheme does not know the object, and otherwise returns `m` with
the first kind the scheme reports set on it. -/
theorem convertToUnstructured_guard (rt : Runtime T M) (s : Scheme T M) (obj : Object T M)
    (m : M) (hconv : rt.ToUnstructured obj = .ok m) :
    ((rt.GroupVersionKindOf m).Group ≠ "" → (rt.GroupVersionKindOf m).Kind ≠ "" →
      ∀ s2 : Scheme T M, convertToUnstructured rt s2 obj = .ok ⟨m⟩) ∧
    ((rt.GroupVersionKindOf m).Group = "" ∨ (rt.GroupVersionKindOf m).Kind = "" →
      (∀ e, s.ObjectKinds obj = .error e →
        convertToUnstructured rt s obj
          = .err (Wrapf "failed to convert to unstructured - unable to get GVK " e)) ∧
      (∀ gvk0 rest, s.ObjectKinds obj = .ok (gvk0 :: rest) →
        convertToUnstructured rt s obj = .ok ⟨rt.SetGroupVersionKind m gvk0⟩)) := by
  refine ⟨?_, ?_⟩
  · intro hg hk s2
    simp [convertToUnstructured, hconv, hg, hk]
  · intro h
    have hguard : ((rt.GroupVersionKindOf m).Group == "" || (rt.GroupVersionKindOf m).Kind == "")
        = true := by
      rcases h with h | h <;> simp [h]
    refine ⟨?_, ?_⟩
    · intro e he
      simp only [convertToUnstructured, hconv, hguard, he, if_true]
    · intro gvk0 rest hk
      simp only [convertToUnstructured, hconv, hguard, hk, if_true]

/-- C13, amended, on the fixtures of the test suite: the unstructured fixture
against an empty scheme, and a typed fixture without type information against
the typed scheme and against an empty scheme. -/
theorem convertToUnstructured_guard_witness :
    convertToUnstructured Example.runtime Example.emptyScheme (.unstructured Example.u)
      = .ok Example.u ∧
    convertToUnstructured Example.runtime Example.typedScheme (.typed Example.r)
      = .ok ⟨Example.setGroupVersionKind (Example.toUnstructured Example.r) Example.testGVK⟩ ∧
    convertToUnstructured Example.runtime Example.emptyScheme (.typed Example.r)
      = .err (Wrapf "failed to convert to unstructured - unable to get GVK "
          ⟨"no kind is registered for the type fakeutil.mockResource", false⟩) :=
  ⟨(convertToUnstructured_guard Example.runtime Example.emptyScheme
      (.unstructured Example.u) Example.u.Object rfl).1 (by decide) (by decide)
      Example.emptyScheme,
   ((convertToUnstructured_guard Example.runtime Example.typedScheme
      (.typed Example.r) (Example.toUnstructured Example.r) rfl).2 (Or.inl rfl)).2
      Example.testGVK [] rfl,
   ((convertToUnstructured_guard Example.runtime Example.emptyScheme
      (.typed Example.r) (Example.toUnstructured Example.r) rfl).2 (Or.inl rfl)).1
      ⟨"no kind is registered for the type fakeutil.mockResource", false⟩ rfl⟩

/-- A kind with "List" appended ends in "List". -/
theorem hasSuffix_append_list (k : String) : HasSuffix (k ++ "List") "List" = true := by
  simp [HasSuffix, List.isSuffixOf_iff_suffix]

/-- Looking up in a scheme with one more registration at the end. -/
theorem lookup_snoc (s : UnstructuredScheme) (gvk g : GroupVersionKind) (t : UnstructuredType) :
    (s ++ [(gvk, t)]).lookup g = (s.lookup g).or (if g = gvk then some t else none) := by
  rw [List.lookup_append]
  congr 1
  by_cases h : g = gvk
  · subst h; simp
  · have hb : (g == gvk) = false := by simp [h]
    simp [List.lookup_cons, h, hb]

/-- A successful AddKnownTypeWithName of a kind that is not recognized appends
the registration. -/
theorem addKnownTypeWithName_fresh (s s2 : UnstructuredScheme) (gvk : GroupVersionKind)
    (t : UnstructuredType) (hn : Recognizes s gvk = false)
    (h : AddKnownTypeWithName s gvk t = .ok s2) : s2 = s ++ [(gvk, t)] := by
  have hl : s.lookup gvk = none := by
    simpa [Recognizes] using hn
  unfold AddKnownTypeWithName at h
  split at h
  · simp at h
  · simp only [hl] at h
    injection h with h
    exact h.symm

/-- AddKnownTypeWithName of a kind with a version that is not recognized returns. -/
theorem addKnownTypeWithName_returns (s : UnstructuredScheme) (gvk : GroupVersionKind)
    (t : UnstructuredType) (hn : Recognizes s gvk = false) (hv : gvk.Version ≠ "") :
    AddKnownTypeWithName s gvk t = .ok (s ++ [(gvk, t)]) := by
  have hl : s.lookup gvk = none := by
    simpa [Recognizes] using hn
  simp [AddKnownTypeWithName, hv, hl]

/-- What a guarded registration that returns has done: nothing is lost, the
kind is registered, and the suffix rule is kept when the type follows it. -/
theorem ensureKnown_spec (s s1 : UnstructuredScheme) (gvk : GroupVersionKind)
    (t : UnstructuredType) (h : ensureKnown s gvk t = .ok s1) :
    Extends s s1 ∧ (∃ x, s1.lookup gvk = some x) ∧
    (t = typeBySuffix gvk → FollowsSuffix s → FollowsSuffix s1) := by
  unfold ensureKnown at h
  cases hr : Recognizes s gvk
  · simp only [hr, Bool.not_false, if_true] at h
    have hs1 := addKnownTypeWithName_fresh s s1 gvk t hr h
    have hl : s.lookup gvk = none := by simpa [Recognizes] using hr
    subst hs1
    refine ⟨?_, ?_, ?_⟩
    · intro g x hg
      rw [lookup_snoc, hg]
      rfl
    · refine ⟨t, ?_⟩
      rw [lookup_snoc, hl]
      simp
    · intro ht hP g x hg
      rw [lookup_snoc] at hg
      cases hsg : s.lookup g with
      | some y =>
        rw [hsg] at hg
        simp only [Option.or_some, Option.some.injEq] at hg
        subst hg
        exact hP g y hsg
      | none =>
        rw [hsg] at hg
        by_cases hgg : g = gvk
        · subst hgg
          simp at hg
          rw [← hg, ht]
        · simp [hgg] at hg
  · simp only [hr, Bool.not_true] at h
    injection h with h
    subst h
    refine ⟨fun _ _ hg => hg, ?_, fun _ hP => hP⟩
    have : (s.lookup gvk).isSome = true := by simpa [Recognizes] using hr
    exact Option.isSome_iff_exists.mp this

/-- A guarded registration of a kind with a version returns. -/
theorem ensureKnown_returns (s : UnstructuredScheme) (gvk : GroupVersionKind)
    (t : UnstructuredType) (hv : gvk.Version ≠ "") : ∃ s1, ensureKnown s gvk t = .ok s1 := by
  unfold ensureKnown
  cases hr : Recognizes s gvk
  · exact ⟨_, by simpa using addKnownTypeWithName_returns s gvk t hr hv⟩
  · exact ⟨s, by simp⟩

/-- The first loop, one step: a guarded registration with the type the suffix selects. -/
theorem registerKnownTypes_cons (gvk : GroupVersionKind) (rest : List GroupVersionKind)
    (s : UnstructuredScheme) :
    registerKnownTypes (gvk :: rest) s
      = (ensureKnown s gvk (typeBySuffix gvk)).bind (registerKnownTypes rest) := by
  unfold ensureKnown typeBySuffix
  rw [registerKnownTypes]
  cases hr : Recognizes s gvk
  · cases hs : HasSuffix gvk.Kind "List" <;> simp
  · simp [GoResult.bind]

/-- A sequenced run returns only if its first part returned. -/
theorem bind_eq_ok {α β : Type} (r : GoResult α) (g : α → GoResult β) (b : β)
    (h : r.bind g = .ok b) : ∃ a, r = .ok a ∧ g a = .ok b := by
  cases r with
  | ok a => exact ⟨a, rfl, h⟩
  | err e => simp [GoResult.bind] at h
  | panic msg => simp [GoResult.bind] at h

/-- What the first loop has done when it returns. -/
theorem registerKnownTypes_spec (gs : List GroupVersionKind) :
    ∀ (s s2 : UnstructuredScheme), registerKnownTypes gs s = .ok s2 →
      Extends s s2 ∧ (∀ g ∈ gs, ∃ x, s2.lookup g = some x) ∧
      (FollowsSuffix s → FollowsSuffix s2) := by
  induction gs with
  | nil =>
    intro s s2 h
    simp only [registerKnownTypes, GoResult.ok.injEq] at h
    subst h
    exact ⟨fun _ _ hg => hg, by simp, fun hP => hP⟩
  | cons gvk rest ih =>
    intro s s2 h
    rw [registerKnownTypes_cons] at h
    obtain ⟨s1, h1, h2⟩ := bind_eq_ok _ _ _ h
    obtain ⟨e1, ⟨x, hx⟩, p1⟩ := ensureKnown_spec s s1 gvk _ h1
    obtain ⟨e2, r2, p2⟩ := ih s1 s2 h2
    refine ⟨fun g y hg => e2 g y (e1 g y hg), ?_, fun hP => p2 (p1 rfl hP)⟩
    intro g hg
    rcases List.mem_cons.mp hg with hg | hg
    · subst hg
      exact ⟨x, e2 _ x hx⟩
    · exact r2 g hg

/-- The first loop returns when every kind has a version. -/
theorem registerKnownTypes_returns (gs : List GroupVersionKind) :
    ∀ (s : UnstructuredScheme), (∀ g ∈ gs, g.Version ≠ "") →
      ∃ s2, registerKnownTypes gs s = .ok s2 := by
  induction gs with
  | nil => exact fun s _ => ⟨s, rfl⟩
  | cons gvk rest ih =>
    intro s hv
    obtain ⟨s1, h1⟩ := ensureKnown_returns s gvk (typeBySuffix gvk)
      (hv gvk (List.mem_cons_self _ _))
    obtain ⟨s2, h2⟩ := ih s1 (fun g hg => hv g (List.mem_cons_of_mem _ hg))
    exact ⟨s2, by rw [registerKnownTypes_cons, h1]; exact h2⟩

/-- The body of the second loop is two guarded registrations. -/
theorem registerObject_eq (rt : Runtime T M) (obj : Unstructured M) (s : UnstructuredScheme) :
    registerObject rt obj s
      = (ensureKnown s (rt.GroupVersionKindOf obj.Object) .Unstructured).bind fun s1 =>
          ensureKnown s1 (listKindOf (rt.GroupVersionKindOf obj.Object)) .UnstructuredList :=
  rfl

/-- What the body of the second loop has done when it returns. -/
theorem registerObject_spec (rt : Runtime T M) (obj : Unstructured M)
    (s s2 : UnstructuredScheme) (h : registerObject rt obj s = .ok s2) :
    Extends s s2 ∧
    (∃ x, s2.lookup (rt.GroupVersionKindOf obj.Object) = some x) ∧
    (∃ x, s2.lookup (listKindOf (rt.GroupVersionKindOf obj.Object)) = some x) ∧
    (HasSuffix (rt.GroupVersionKindOf obj.Object).Kind "List" = false →
      FollowsSuffix s → FollowsSuffix s2) := by
  rw [registerObject_eq] at h
  obtain ⟨s1, h1, h2⟩ := bind_eq_ok _ _ _ h
  obtain ⟨e1, ⟨x, hx⟩, p1⟩ := ensureKnown_spec _ _ _ _ h1
  obtain ⟨e2, hl, p2⟩ := ensureKnown_spec _ _ _ _ h2
  refine ⟨fun g y hg => e2 g y (e1 g y hg), ⟨x, e2 _ x hx⟩, hl, ?_⟩
  intro hs hP
  refine p2 ?_ (p1 ?_ hP)
  · simp [typeBySuffix, listKindOf, hasSuffix_append_list]
  · simp [typeBySuffix, hs]

/-- What the second loop has done when it returns. -/
theorem registerObjects_spec (rt : Runtime T M) (objs : List (Unstructured M)) :
    ∀ (s s2 : UnstructuredScheme), registerObjects rt objs s = .ok s2 →
      Extends s s2 ∧
      (∀ o ∈ objs, (∃ x, s2.lookup (rt.GroupVersionKindOf o.Object) = some x) ∧
        ∃ x, s2.lookup (listKindOf (rt.GroupVersionKindOf o.Object)) = some x) ∧
      ((∀ o ∈ objs, HasSuffix (rt.GroupVersionKindOf o.Object).Kind "List" = false) →
        FollowsSuffix s → FollowsSuffix s2) := by
  induction objs with
  | nil =>
    intro s s2 h
    simp only [registerObjects, GoResult.ok.injEq] at h
    subst h
    exact ⟨fun _ _ hg => hg, by simp, fun _ hP => hP⟩
  | cons obj rest ih =>
    intro s s2 h
    rw [registerObjects] at h
    obtain ⟨s1, h1, h2⟩ := bind_eq_ok _ _ _ h
    obtain ⟨e1, ⟨x, hx⟩, ⟨y, hy⟩, p1⟩ := registerObject_spec rt obj s s1 h1
    obtain ⟨e2, r2, p2⟩ := ih s1 s2 h2
    refine ⟨fun g z hg => e2 g z (e1 g z hg), ?_, ?_⟩
    · intro o ho
      rcases List.mem_cons.mp ho with ho | ho
      · subst ho
        exact ⟨⟨x, e2 _ x hx⟩, ⟨y, e2 _ y hy⟩⟩
      · exact r2 o ho
    · intro hs hP
      exact p2 (fun o ho => hs o (List.mem_cons_of_mem _ ho))
        (p1 (hs obj (List.mem_cons_self _ _)) hP)

/-- The second loop returns when every object declares a version. -/
theorem registerObjects_returns (rt : Runtime T M) (objs : List (Unstructured M)) :
    ∀ (s : UnstructuredScheme),
      (∀ o ∈ objs, (rt.GroupVersionKindOf o.Object).Version ≠ "") →
      ∃ s2, registerObjects rt objs s = .ok s2 := by
  induction objs with
  | nil => exact fun s _ => ⟨s, rfl⟩
  | cons obj rest ih =>
    intro s hv
    have hv0 := hv obj (List.mem_cons_self _ _)
    obtain ⟨s1, h1⟩ := ensureKnown_returns s (rt.GroupVersionKindOf obj.Object) .Unstructured hv0
    obtain ⟨s2, h2⟩ := ensureKnown_returns s1 (listKindOf (rt.GroupVersionKindOf obj.Object))
      .UnstructuredList hv0
    obtain ⟨s3, h3⟩ := ih s2 (fun o ho => hv o (List.mem_cons_of_mem _ ho))
    refine ⟨s3, ?_⟩
    rw [registerObjects, registerObject_eq, h1]
    simp only [GoResult.bind]
    rw [h2]
    exact h3

/-- C14, as stated, fails. A scheme that registers the kind "AllowList" and a
fixture of that kind: the built scheme holds the fixture's own kind as a list
type. An empty scheme and two fixtures, of kinds "TestKindList" and "TestKind":
the built scheme holds "TestKind" followed by "List" as a single object type. -/
theorem newSimpleDynamicClient_list_suffix_counterexample :
    (Example.runtime.GroupVersionKindOf Example.allowList.Object = Example.allowListGVK ∧
      ∃ us, NewSimpleDynamicClient Example.runtime
          (Example.schemeOf [(Example.allowListGVK, "mockResource")])
          [.unstructured Example.allowList] = .ok ⟨us, [Example.allowList]⟩ ∧
        us.lookup Example.allowListGVK = some .UnstructuredList) ∧
    (Example.runtime.GroupVersionKindOf Example.u.Object = Example.testGVK ∧
      ∃ us, NewSimpleDynamicClient Example.runtime Example.emptyScheme
          [.unstructured Example.listKindFixture, .unstructured Example.u]
          = .ok ⟨us, [Example.listKindFixture, Example.u]⟩ ∧
        us.lookup (listKindOf Example.testGVK) = some .Unstructured) :=
  ⟨⟨rfl, _, rfl, rfl⟩, ⟨rfl, _, rfl, rfl⟩⟩

/-- C14, amended: when the fixtures convert and every kind, of the scheme
passed in and of the converted fixtures, has a version, NewSimpleDynamicClient
returns a client with the converted fixtures whose scheme recognizes, for every
fixture of kind K, both K and K followed by "List", also when the scheme passed
in is empty; it holds every kind of the scheme passed in, with the list type if
its name ends in "List" and the object type otherwise; and when no fixture's
kind ends in "List", it holds every fixture's kind K with the object type and
K followed by "List" with the list type. -/
theorem newSimpleDynamicClient_registry (rt : Runtime T M) (scheme : Scheme T M)
    (objects : List (Object T M)) (objs : List (Unstructured M))
    (hconv : convertObjectsToUnstructured rt scheme objects = .ok objs)
    (hv1 : ∀ g ∈ scheme.AllKnownTypes, g.Version ≠ "")
    (hv2 : ∀ o ∈ objs, (rt.GroupVersionKindOf o.Object).Version ≠ "") :
    ∃ us, NewSimpleDynamicClient rt scheme objects = .ok ⟨us, objs⟩ ∧
      (∀ o ∈ objs, Recognizes us (rt.GroupVersionKindOf o.Object) = true ∧
        Recognizes us (listKindOf (rt.GroupVersionKindOf o.Object)) = true) ∧
      (∀ g ∈ scheme.AllKnownTypes, us.lookup g = some (typeBySuffix g)) ∧
      ((∀ o ∈ objs, HasSuffix (rt.GroupVersionKindOf o.Object).Kind "List" = false) →
        ∀ o ∈ objs, us.lookup (rt.GroupVersionKindOf o.Object) = some .Unstructured ∧
          us.lookup (listKindOf (rt.GroupVersionKindOf o.Object)) = some .UnstructuredList) := by
  obtain ⟨s1, h1⟩ := registerKnownTypes_returns scheme.AllKnownTypes NewScheme hv1
  obtain ⟨s2, h2⟩ := registerObjects_returns rt objs s1 hv2
  obtain ⟨-, r1, p1⟩ := registerKnownTypes_spec _ _ _ h1
  obtain ⟨e2, r2, p2⟩ := registerObjects_spec rt objs _ _ h2
  have hP1 : FollowsSuffix s1 := p1 (fun g x hg => by simp [NewScheme] at hg)
  refine ⟨s2, ?_, ?_, ?_, ?_⟩
  · simp [NewSimpleDynamicClient, h1, hconv, h2, GoResult.bind]
  · intro o ho
    obtain ⟨⟨x, hx⟩, ⟨y, hy⟩⟩ := r2 o ho
    simp [Recognizes, hx, hy]
  · intro g hg
    obtain ⟨x, hx⟩ := r1 g hg
    rw [e2 g x hx, hP1 g x hx]
  · intro hs o ho
    have hP2 : FollowsSuffix s2 := p2 hs hP1
    obtain ⟨⟨x, hx⟩, ⟨y, hy⟩⟩ := r2 o ho
    refine ⟨?_, ?_⟩
    · rw [hx, hP2 _ x hx]
      simp [typeBySuffix, hs o ho]
    · rw [hy, hP2 _ y hy]
      simp [typeBySuffix, listKindOf, hasSuffix_append_list]

/-- C14, amended, on the unstructured fixture of the test suite, against an
empty scheme and against the typed scheme. -/
theorem newSimpleDynamicClient_registry_witness :
    (∃ us, NewSimpleDynamicClient Example.runtime Example.emptyScheme
        [.unstructured Example.u] = .ok ⟨us, [Example.u]⟩ ∧
      us.lookup Example.testGVK = some .Unstructured ∧
      us.lookup (listKindOf Example.testGVK) = some .UnstructuredList) ∧
    (∃ us, NewSimpleDynamicClient Example.runtime Example.typedScheme
        [.unstructured Example.u] = .ok ⟨us, [Example.u]⟩ ∧
      Recognizes us Example.testGVK = true ∧
      Recognizes us (listKindOf Example.testGVK) = true) := by
  refine ⟨?_, ?_⟩
  · obtain ⟨us, h, -, -, hty⟩ := newSimpleDynamicClient_registry Example.runtime
      Example.emptyScheme [.unstructured Example.u] [Example.u] rfl (by decide) (by decide)
    exact ⟨us, h, hty (by decide) Example.u (by simp)⟩
  · obtain ⟨us, h, hrec, -, -⟩ := newSimpleDynamicClient_registry Example.runtime
      Example.typedScheme [.unstructured Example.u] [Example.u] rfl (by decide) (by decide)
    exact ⟨us, h, hrec Example.u (by simp)⟩

end Theorems

end Fakeutil
